import Mathlib

/-!
Verification development for the llm-terminal repository.

The repository contains three near-duplicate terminal chat prototypes.  Each
variant is embedded in its own namespace:

* `GeminiTerminal` — the files under `gemini_terminal/` (data models, YAML
  config manager, the Gemini tool-call orchestration loop in
  `gemini_client.py`, and the MCP stdio client).
* `Src` — the files under `src/` (`config.py` with the pydantic
  `AppConfig`/`ServerConfig` and its JSON migrations, `app.py` with the MCP
  connect logic).
* `Llm` — the files under `llm_terminal/` (`config.py` with
  `load_settings` / `load_mcp_servers_from_config`, `agent_service.py`, and
  the worker-queue application in `app.py`).

External collaborators (the Gemini model, MCP tool processes, the file
system) are modelled as explicit oracle arguments or small state types; every
exception path that the Python code catches is modelled by the corresponding
total branch, and an exception that escapes to the caller is modelled with
`Except.error`.
-/

namespace GeminiTerminal

/-- A structured tool-call request from the model (`types.FunctionCall`):
a tool name plus arguments.  `fc_part.args or {}` in the source defaults a
missing argument dict to empty, so arguments are kept as a plain association
list. -/
structure FunctionCall where
  name : String
  args : List (String × String)
deriving DecidableEq

/-- One model turn as consumed by `generate_mcp_content`: the text of the
first candidate part (empty string when the part carries no text) and the
list of structured tool-call requests (`response.function_calls`, empty when
the model requests no tools). -/
structure ModelResponse where
  text : String
  function_calls : List FunctionCall
deriving DecidableEq

/-- A tool exposed by a connected MCP session (only its name is consulted by
the dispatch loop). -/
structure McpTool where
  name : String
deriving DecidableEq

/-- Outcome of `session.call_tool(tool_name, args)` as observed by the loop:
a successful result text, a result flagged `isError` carrying an error text,
or a raised exception with its message. -/
inductive ToolCallOutcome
  | ok (text : String)
  | isError (text : String)
  | exc (msg : String)
deriving DecidableEq

/-- A live MCP client session, abstracted as its `call_tool` behaviour. -/
structure McpSession where
  call_tool : String → List (String × String) → ToolCallOutcome

/-- `gemini_terminal.data_models.ServerConfig`: launch recipe for one MCP
server process. -/
structure ServerConfig where
  name : String
  command : String
  args : List String := []
  env : List (String × String) := []
  active : Bool := false
deriving DecidableEq

/-- One element of the `mcp_sessions` list handed to
`generate_mcp_content`: the triple `(server_config, session, tools)` built by
`connect_to_server`, in registration order. -/
structure SessionEntry where
  server_config : ServerConfig
  session : McpSession
  tools : List McpTool

/-- The function-response payload fed back to the model: the dict
`{"result": text}` on success or `{"error": text}` on any failure. -/
inductive ToolResponse
  | result (text : String)
  | error (text : String)
deriving DecidableEq

/-- `types.Part.from_function_response(name, response)`. -/
structure Part where
  name : String
  response : ToolResponse
deriving DecidableEq

/-- One element of the `contents` history list: a user text part, the fixed
model text inserted at the start of the conversation, a full model turn, or
the single user turn holding all tool responses of one tool turn. -/
inductive Content
  | userText (t : String)
  | modelText (t : String)
  | modelTurn (r : ModelResponse)
  | toolResults (parts : List Part)
deriving DecidableEq

/-- `any(tool.name == tool_name for tool in tools)` — does this session
expose a tool with the given name? -/
def sessionHasTool (e : SessionEntry) (n : String) : Bool :=
  e.tools.any (fun t => t.name == n)

/-- The linear search of `for server_config, session, tools in mcp_sessions`
for the first session whose tool list contains the name, together with its
position in the registration order.  Later sessions are not inspected once a
match is found (the Python loop breaks on every branch after a match). -/
def findSession : List SessionEntry → String → Option (Nat × SessionEntry)
  | [], _ => none
  | e :: rest, n =>
    if sessionHasTool e n then some (0, e)
    else (findSession rest n).map (fun p => (p.1 + 1, p.2))

/-- The body executed on the matching session: call the tool and convert the
outcome to the response dict, turning a raised exception into
`{"error": "Tool execution failed: ..."}`. -/
def callMatchedSession (e : SessionEntry) (fc : FunctionCall) : ToolResponse :=
  match e.session.call_tool fc.name fc.args with
  | .ok t => .result t
  | .isError t => .error t
  | .exc m => .error ("Tool execution failed: " ++ m)

/-- Resolution of a single tool-call request: linear search over the
connected sessions; the first match is invoked (its index is returned), and
an unmatched name produces the inline error part
`{"error": "Tool ... not found in active servers"}`. -/
def dispatchCall (sessions : List SessionEntry) (fc : FunctionCall) :
    Option Nat × Part :=
  match findSession sessions fc.name with
  | none =>
    (none, ⟨fc.name, .error ("Tool \x27" ++ fc.name ++ "\x27 not found in active servers")⟩)
  | some (i, e) => (some i, ⟨fc.name, callMatchedSession e fc⟩)

/-- `max_tool_turns = 5` in `generate_mcp_content`. -/
def max_tool_turns : Nat := 5

/-- The values live at exit of the `while` loop of `generate_mcp_content`:
the tool-turn counter, the last model response, the accumulated `contents`
history, the running `response_text`, and the number of model invocations
performed so far (one per `generate_content` call). -/
structure LoopOut where
  turn_count : Nat
  response : ModelResponse
  contents : List Content
  response_text : String
  invocations : Nat
deriving DecidableEq

/-- The `while response.function_calls and turn_count < max_tool_turns` loop
of `generate_mcp_content`.  `modelCall i` is the response returned by the
model on its `(i+1)`-st invocation (the external model abstracted as the
sequence of responses it produces); invocation `turn_count` is the follow-up
call made at the end of loop iteration `turn_count`.  Each iteration maps
every requested call through `dispatchCall`, appends the tool results as one
user turn and the follow-up model turn to the history, and keeps the old
`response_text` when the new turn carries no text
(`response_text = new_response_text or response_text`). -/
def toolLoop (modelCall : Nat → ModelResponse) (sessions : List SessionEntry)
    (response : ModelResponse) (turn_count : Nat)
    (contents : List Content) (response_text : String) (invocations : Nat) :
    LoopOut :=
  if h : response.function_calls ≠ [] ∧ turn_count < max_tool_turns then
    let tc := turn_count + 1
    let parts := response.function_calls.map (fun fc => (dispatchCall sessions fc).2)
    let contents1 := contents ++ [Content.toolResults parts]
    let resp1 := modelCall tc
    let text1 := if resp1.text = "" then response_text else resp1.text
    let contents2 := contents1 ++ [Content.modelTurn resp1]
    toolLoop modelCall sessions resp1 tc contents2 text1 (invocations + 1)
  else
    ⟨turn_count, response, contents, response_text, invocations⟩
termination_by max_tool_turns - turn_count
decreasing_by
  omega

/-- The observable outcome of one `generate_mcp_content` run: total model
invocations, tool turns executed, the final `response_text` (with the
truncation notice when the turn limit was hit while the model still
requested tools), whether that notice was appended, and the final history. -/
structure GenResult where
  invocations : Nat
  tool_turns : Nat
  text : String
  truncated : Bool
  contents : List Content
deriving DecidableEq

/-- `GeminiClient.generate_mcp_content` (the initialized-client, no-vendor-
exception executions): build the three fixed opening history entries, make
the initial model invocation, append its content, run the tool-calling loop,
and append the `*Maximum tool turns reached*` notice exactly when the loop
stopped at the turn limit with the model still requesting tools. -/
def generate_mcp_content (modelCall : Nat → ModelResponse)
    (sessions : List SessionEntry) (system_prompt user_prompt : String) :
    GenResult :=
  let contents0 : List Content :=
    [Content.userText system_prompt,
     Content.modelText "I\x27ll help you with that.",
     Content.userText user_prompt]
  let response := modelCall 0
  let contents1 := contents0 ++ [Content.modelTurn response]
  let out := toolLoop modelCall sessions response 0 contents1 response.text 1
  if out.turn_count ≥ max_tool_turns ∧ out.response.function_calls ≠ [] then
    { invocations := out.invocations, tool_turns := out.turn_count,
      text := out.response_text ++ "\n\n*Maximum tool turns reached*",
      truncated := true, contents := out.contents }
  else
    { invocations := out.invocations, tool_turns := out.turn_count,
      text := out.response_text, truncated := false, contents := out.contents }

end GeminiTerminal

namespace GeminiTerminal

theorem toolLoop_stop (m : Nat → ModelResponse) (s : List SessionEntry)
    (r : ModelResponse) (tc : Nat) (c : List Content) (t : String) (i : Nat)
    (h : r.function_calls = [] ∨ max_tool_turns ≤ tc) :
    toolLoop m s r tc c t i = ⟨tc, r, c, t, i⟩ := by
  have hnc : ¬(r.function_calls ≠ [] ∧ tc < max_tool_turns) := by
    rintro ⟨h1, h2⟩
    rcases h with h | h
    · exact h1 h
    · omega
  rw [toolLoop, dif_neg hnc]

theorem toolLoop_step (m : Nat → ModelResponse) (s : List SessionEntry)
    (r : ModelResponse) (tc : Nat) (c : List Content) (t : String) (i : Nat)
    (h1 : r.function_calls ≠ []) (h2 : tc < max_tool_turns) :
    toolLoop m s r tc c t i =
      toolLoop m s (m (tc + 1)) (tc + 1)
        ((c ++ [Content.toolResults (r.function_calls.map (fun fc => (dispatchCall s fc).2))])
          ++ [Content.modelTurn (m (tc + 1))])
        (if (m (tc + 1)).text = "" then t else (m (tc + 1)).text)
        (i + 1) := by
  rw [toolLoop, dif_pos ⟨h1, h2⟩]

theorem toolLoop_run (m : Nat → ModelResponse) (s : List SessionEntry) :
    ∀ (n tc : Nat) (c : List Content) (t : String) (i : Nat),
      tc + n ≤ max_tool_turns →
      (∀ j, tc ≤ j → j < tc + n → (m j).function_calls ≠ []) →
      (m (tc + n)).function_calls = [] →
      (toolLoop m s (m tc) tc c t i).turn_count = tc + n ∧
      (toolLoop m s (m tc) tc c t i).invocations = i + n ∧
      (toolLoop m s (m tc) tc c t i).response = m (tc + n) := by
  intro n
  induction n with
  | zero =>
    intro tc c t i _ _ hstop
    rw [toolLoop_stop m s (m tc) tc c t i (Or.inl (by simpa using hstop))]
    simp
  | succ n ih =>
    intro tc c t i hle hall hstop
    have hcall : (m tc).function_calls ≠ [] := hall tc le_rfl (by omega)
    have htc : tc < max_tool_turns := by omega
    rw [toolLoop_step m s (m tc) tc c t i hcall htc]
    have heq : tc + 1 + n = tc + (n + 1) := by omega
    obtain ⟨ha, hb, hc2⟩ := ih (tc + 1)
      ((c ++ [Content.toolResults ((m tc).function_calls.map (fun fc => (dispatchCall s fc).2))])
        ++ [Content.modelTurn (m (tc + 1))])
      (if (m (tc + 1)).text = "" then t else (m (tc + 1)).text)
      (i + 1) (by omega) (fun j hj1 hj2 => hall j (by omega) (by omega))
      (by rw [heq]; exact hstop)
    refine ⟨?_, ?_, ?_⟩
    · rw [ha]; omega
    · rw [hb]; omega
    · rw [hc2, heq]

theorem toolLoop_saturate (m : Nat → ModelResponse) (s : List SessionEntry) :
    ∀ (n tc : Nat) (c : List Content) (t : String) (i : Nat),
      tc + n = max_tool_turns →
      (∀ j, tc ≤ j → j ≤ max_tool_turns → (m j).function_calls ≠ []) →
      (toolLoop m s (m tc) tc c t i).turn_count = max_tool_turns ∧
      (toolLoop m s (m tc) tc c t i).invocations = i + n ∧
      (toolLoop m s (m tc) tc c t i).response = m max_tool_turns := by
  intro n
  induction n with
  | zero =>
    intro tc c t i hsum hall
    have htc2 : tc = max_tool_turns := by omega
    rw [toolLoop_stop m s (m tc) tc c t i (Or.inr (by omega))]
    refine ⟨by simpa using htc2, by simp, by simp [htc2]⟩
  | succ n ih =>
    intro tc c t i hsum hall
    have hcall : (m tc).function_calls ≠ [] := hall tc le_rfl (by omega)
    have htc : tc < max_tool_turns := by omega
    rw [toolLoop_step m s (m tc) tc c t i hcall htc]
    obtain ⟨ha, hb, hc2⟩ := ih (tc + 1)
      ((c ++ [Content.toolResults ((m tc).function_calls.map (fun fc => (dispatchCall s fc).2))])
        ++ [Content.modelTurn (m (tc + 1))])
      (if (m (tc + 1)).text = "" then t else (m (tc + 1)).text)
      (i + 1) (by omega) (fun j hj1 hj2 => hall j (by omega) hj2)
    exact ⟨ha, by rw [hb]; omega, hc2⟩

end GeminiTerminal

namespace GeminiTerminal

theorem generate_run (m : Nat → ModelResponse) (s : List SessionEntry)
    (sys usr : String) (k : Nat) (hk : k ≤ max_tool_turns)
    (hall : ∀ j, j < k → (m j).function_calls ≠ [])
    (hstop : (m k).function_calls = []) :
    (generate_mcp_content m s sys usr).invocations = k + 1 ∧
    (generate_mcp_content m s sys usr).tool_turns = k ∧
    (generate_mcp_content m s sys usr).truncated = false := by
  obtain ⟨ha, hb, hc2⟩ := toolLoop_run m s k 0
    ([Content.userText sys, Content.modelText "I\x27ll help you with that.",
      Content.userText usr] ++ [Content.modelTurn (m 0)])
    ((m 0).text) 1 (by omega)
    (fun j hj1 hj2 => hall j (by omega)) (by simpa using hstop)
  simp only [Nat.zero_add] at ha hb hc2
  simp only [generate_mcp_content]
  set X := toolLoop m s (m 0) 0
    ([Content.userText sys, Content.modelText "I\x27ll help you with that.",
      Content.userText usr] ++ [Content.modelTurn (m 0)])
    ((m 0).text) 1 with hX
  have hcond : ¬(X.turn_count ≥ max_tool_turns ∧ X.response.function_calls ≠ []) := by
    rintro ⟨_, hne⟩
    rw [hc2] at hne
    exact hne hstop
  rw [if_neg hcond]
  refine ⟨?_, ?_, rfl⟩
  · show X.invocations = k + 1
    omega
  · show X.turn_count = k
    omega

theorem generate_saturate (m : Nat → ModelResponse) (s : List SessionEntry)
    (sys usr : String)
    (hall : ∀ j, j ≤ max_tool_turns → (m j).function_calls ≠ []) :
    (generate_mcp_content m s sys usr).invocations = max_tool_turns + 1 ∧
    (generate_mcp_content m s sys usr).tool_turns = max_tool_turns ∧
    (generate_mcp_content m s sys usr).truncated = true ∧
    ∃ str, (generate_mcp_content m s sys usr).text =
      str ++ "\n\n*Maximum tool turns reached*" := by
  obtain ⟨ha, hb, hc2⟩ := toolLoop_saturate m s max_tool_turns 0
    ([Content.userText sys, Content.modelText "I\x27ll help you with that.",
      Content.userText usr] ++ [Content.modelTurn (m 0)])
    ((m 0).text) 1 (by omega)
    (fun j hj1 hj2 => hall j hj2)
  simp only [generate_mcp_content]
  set X := toolLoop m s (m 0) 0
    ([Content.userText sys, Content.modelText "I\x27ll help you with that.",
      Content.userText usr] ++ [Content.modelTurn (m 0)])
    ((m 0).text) 1 with hX
  have hcond : X.turn_count ≥ max_tool_turns ∧ X.response.function_calls ≠ [] := by
    refine ⟨by omega, ?_⟩
    rw [hc2]
    exact hall max_tool_turns le_rfl
  rw [if_pos hcond]
  refine ⟨?_, ?_, rfl, ⟨X.response_text, rfl⟩⟩
  · show X.invocations = max_tool_turns + 1
    omega
  · show X.turn_count = max_tool_turns
    omega

theorem generate_no_tools (m : Nat → ModelResponse) (s : List SessionEntry)
    (sys usr : String) (h : (m 0).function_calls = []) :
    generate_mcp_content m s sys usr =
      { invocations := 1, tool_turns := 0, text := (m 0).text, truncated := false,
        contents := [Content.userText sys,
          Content.modelText "I\x27ll help you with that.",
          Content.userText usr, Content.modelTurn (m 0)] } := by
  simp only [generate_mcp_content]
  rw [toolLoop_stop m s (m 0) 0 _ _ 1 (Or.inl h)]
  rw [if_neg (by rintro ⟨_, hne⟩; exact hne h)]
  rfl

theorem generate_one_turn (m : Nat → ModelResponse) (s : List SessionEntry)
    (sys usr : String) (h0 : (m 0).function_calls ≠ [])
    (h1 : (m 1).function_calls = []) :
    generate_mcp_content m s sys usr =
      { invocations := 2, tool_turns := 1,
        text := if (m 1).text = "" then (m 0).text else (m 1).text,
        truncated := false,
        contents := [Content.userText sys,
          Content.modelText "I\x27ll help you with that.",
          Content.userText usr, Content.modelTurn (m 0),
          Content.toolResults ((m 0).function_calls.map (fun fc => (dispatchCall s fc).2)),
          Content.modelTurn (m 1)] } := by
  simp only [generate_mcp_content]
  rw [toolLoop_step m s (m 0) 0 _ _ 1 h0 (by decide)]
  simp only [Nat.zero_add]
  rw [toolLoop_stop m s (m 1) 1 _ _ 2 (Or.inl h1)]
  rw [if_neg (by rintro ⟨hge, _⟩; exact (by decide : ¬ (1 ≥ max_tool_turns)) hge)]
  rfl

end GeminiTerminal

namespace GeminiTerminal

theorem mem_of_getElemOpt {α : Type} (l : List α) (i : Nat) (a : α)
    (h : l[i]? = some a) : a ∈ l := by
  induction l generalizing i with
  | nil => simp at h
  | cons b rest ih =>
    cases i with
    | zero => simp at h; simp [h]
    | succ i =>
      simp only [List.getElem?_cons_succ] at h
      exact List.mem_cons_of_mem b (ih i h)

theorem findSession_eq_none (l : List SessionEntry) (n : String)
    (h : ∀ e ∈ l, sessionHasTool e n = false) : findSession l n = none := by
  induction l with
  | nil => rfl
  | cons e rest ih =>
    simp only [findSession]
    rw [if_neg (by simp [h e (List.mem_cons_self e rest)])]
    rw [ih (fun e' he' => h e' (List.mem_cons_of_mem e he'))]
    rfl

theorem findSession_none_all (l : List SessionEntry) (n : String)
    (h : findSession l n = none) : ∀ e ∈ l, sessionHasTool e n = false := by
  induction l with
  | nil => simp
  | cons e rest ih =>
    simp only [findSession] at h
    by_cases he : sessionHasTool e n
    · rw [if_pos he] at h
      exact absurd h (by simp)
    · rw [if_neg he] at h
      intro e' he'
      rcases List.mem_cons.mp he' with rfl | hmem
      · simpa using he
      · exact ih (by
          cases hfs : findSession rest n with
          | none => rfl
          | some p => rw [hfs] at h; simp at h) e' hmem

theorem findSession_spec (l : List SessionEntry) (n : String) (i : Nat)
    (e : SessionEntry) (h : findSession l n = some (i, e)) :
    l[i]? = some e ∧ sessionHasTool e n = true ∧
    ∀ j, j < i → ∀ e', l[j]? = some e' → sessionHasTool e' n = false := by
  induction l generalizing i with
  | nil => simp [findSession] at h
  | cons a rest ih =>
    simp only [findSession] at h
    by_cases ha : sessionHasTool a n
    · rw [if_pos ha] at h
      simp only [Option.some.injEq, Prod.mk.injEq] at h
      obtain ⟨rfl, rfl⟩ := h
      refine ⟨by simp, ha, ?_⟩
      intro j hj e' he'
      exact absurd hj (Nat.not_lt_zero j)
    · rw [if_neg ha] at h
      cases hfs : findSession rest n with
      | none => rw [hfs] at h; simp at h
      | some p =>
        rw [hfs] at h
        simp only [Option.map_some', Option.some.injEq, Prod.mk.injEq] at h
        obtain ⟨hp1, rfl⟩ := h
        obtain ⟨pi, pe⟩ := p
        obtain ⟨hg, ht, hmin⟩ := ih pi hfs
        refine ⟨?_, ht, ?_⟩
        · rw [← hp1]
          simpa using hg
        · intro j hj e' he'
          cases j with
          | zero =>
            simp only [List.getElem?_cons_zero, Option.some.injEq] at he'
            rw [← he']
            simpa using ha
          | succ j =>
            simp only [List.getElem?_cons_succ] at he'
            exact hmin j (by omega) e' he'

theorem findSession_take_append (l : List SessionEntry) (n : String) (i : Nat)
    (e : SessionEntry) (h : findSession l n = some (i, e)) :
    ∀ tail, findSession (l.take (i + 1) ++ tail) n = some (i, e) := by
  induction l generalizing i with
  | nil => simp [findSession] at h
  | cons a rest ih =>
    intro tail
    simp only [findSession] at h
    by_cases ha : sessionHasTool a n
    · rw [if_pos ha] at h
      simp only [Option.some.injEq, Prod.mk.injEq] at h
      obtain ⟨rfl, rfl⟩ := h
      simp [findSession, ha]
    · rw [if_neg ha] at h
      cases hfs : findSession rest n with
      | none => rw [hfs] at h; simp at h
      | some p =>
        rw [hfs] at h
        simp only [Option.map_some', Option.some.injEq, Prod.mk.injEq] at h
        obtain ⟨hp1, rfl⟩ := h
        obtain ⟨pi, pe⟩ := p
        have := ih pi hfs tail
        rw [← hp1]
        simp only [List.take_succ_cons, List.cons_append, findSession]
        rw [if_neg ha, List.append_eq, this]
        rfl

end GeminiTerminal

/-- Fixed model-response sequence for exercising the loop: tool calls on the
first two turns, none afterwards. -/
def modelSeqA : Nat → GeminiTerminal.ModelResponse :=
  fun i => if i < 2 then ⟨"calling", [⟨"echo", []⟩]⟩ else ⟨"done", []⟩

/-- Fixed model-response sequence that requests a tool on every turn. -/
def modelSeqB : Nat → GeminiTerminal.ModelResponse :=
  fun _ => ⟨"calling", [⟨"echo", []⟩]⟩

/-- Fixed model-response sequence that never requests a tool. -/
def modelSeqC : Nat → GeminiTerminal.ModelResponse :=
  fun _ => ⟨"plain answer", []⟩

/-- Fixed model-response sequence requesting an unknown tool on the first
turn only. -/
def modelSeqD : Nat → GeminiTerminal.ModelResponse :=
  fun i => if i = 0 then ⟨"using tool", [⟨"ghost", []⟩]⟩ else ⟨"done", []⟩

/-- C1: in every run of `GeminiClient.generate_mcp_content` in which the
model requests at least one tool call on each of k consecutive turns
(1 ≤ k ≤ 5) and none afterwards, the loop performs exactly k+1 model
invocations and terminates without the truncation notice; and when the model
still requests tools after the 5th tool turn, the loop stops after exactly 5
tool turns and appends the truncation notice to the response text. -/
theorem claim_C1 (modelCall : Nat → GeminiTerminal.ModelResponse)
    (sessions : List GeminiTerminal.SessionEntry) (sys usr : String) (k : Nat) :
    (1 ≤ k → k ≤ 5 →
      (∀ j, j < k → (modelCall j).function_calls ≠ []) →
      (modelCall k).function_calls = [] →
      (GeminiTerminal.generate_mcp_content modelCall sessions sys usr).invocations = k + 1 ∧
      (GeminiTerminal.generate_mcp_content modelCall sessions sys usr).truncated = false) ∧
    ((∀ j, j ≤ 5 → (modelCall j).function_calls ≠ []) →
      (GeminiTerminal.generate_mcp_content modelCall sessions sys usr).tool_turns = 5 ∧
      (GeminiTerminal.generate_mcp_content modelCall sessions sys usr).invocations = 6 ∧
      (GeminiTerminal.generate_mcp_content modelCall sessions sys usr).truncated = true ∧
      ∃ str, (GeminiTerminal.generate_mcp_content modelCall sessions sys usr).text =
        str ++ "\n\n*Maximum tool turns reached*") := by
  constructor
  · intro _ hk hall hstop
    obtain ⟨ha, _, hc⟩ :=
      GeminiTerminal.generate_run modelCall sessions sys usr k hk hall hstop
    exact ⟨ha, hc⟩
  · intro hall
    obtain ⟨ha, hb, hc, hd⟩ :=
      GeminiTerminal.generate_saturate modelCall sessions sys usr hall
    exact ⟨hb, ha, hc, hd⟩

theorem claim_C1_witness :
    ((GeminiTerminal.generate_mcp_content modelSeqA [] "sys" "usr").invocations = 2 + 1 ∧
     (GeminiTerminal.generate_mcp_content modelSeqA [] "sys" "usr").truncated = false) ∧
    ((GeminiTerminal.generate_mcp_content modelSeqB [] "sys" "usr").tool_turns = 5 ∧
     (GeminiTerminal.generate_mcp_content modelSeqB [] "sys" "usr").invocations = 6 ∧
     (GeminiTerminal.generate_mcp_content modelSeqB [] "sys" "usr").truncated = true ∧
     ∃ str, (GeminiTerminal.generate_mcp_content modelSeqB [] "sys" "usr").text =
       str ++ "\n\n*Maximum tool turns reached*") :=
  ⟨(claim_C1 modelSeqA [] "sys" "usr" 2).1 (by decide) (by decide)
      (by decide) (by decide),
   (claim_C1 modelSeqB [] "sys" "usr" 0).2
      (fun j _ => by simp [modelSeqB])⟩

/-- C7: when the first model turn returns zero tool-call requests, the loop
terminates after exactly one model invocation with zero tool turns, and the
text of that single turn is the final output (no truncation notice). -/
theorem claim_C7 (modelCall : Nat → GeminiTerminal.ModelResponse)
    (sessions : List GeminiTerminal.SessionEntry) (sys usr : String)
    (h : (modelCall 0).function_calls = []) :
    (GeminiTerminal.generate_mcp_content modelCall sessions sys usr).invocations = 1 ∧
    (GeminiTerminal.generate_mcp_content modelCall sessions sys usr).tool_turns = 0 ∧
    (GeminiTerminal.generate_mcp_content modelCall sessions sys usr).text =
      (modelCall 0).text ∧
    (GeminiTerminal.generate_mcp_content modelCall sessions sys usr).truncated = false := by
  rw [GeminiTerminal.generate_no_tools modelCall sessions sys usr h]
  exact ⟨rfl, rfl, rfl, rfl⟩

theorem claim_C7_witness :
    (GeminiTerminal.generate_mcp_content modelSeqC [] "s" "u").invocations = 1 ∧
    (GeminiTerminal.generate_mcp_content modelSeqC [] "s" "u").tool_turns = 0 ∧
    (GeminiTerminal.generate_mcp_content modelSeqC [] "s" "u").text =
      (modelSeqC 0).text ∧
    (GeminiTerminal.generate_mcp_content modelSeqC [] "s" "u").truncated = false :=
  claim_C7 modelSeqC [] "s" "u" rfl

/-- A tool named "echo", exposed by two different servers. -/
def toolEcho : GeminiTerminal.McpTool := ⟨"echo"⟩

/-- First-registered session exposing "echo". -/
def sessA : GeminiTerminal.SessionEntry :=
  ⟨⟨"A", "cmdA", [], [], true⟩, ⟨fun _ _ => .ok "from A"⟩, [toolEcho]⟩

/-- Second-registered session also exposing "echo". -/
def sessB : GeminiTerminal.SessionEntry :=
  ⟨⟨"B", "cmdB", [], [], true⟩, ⟨fun _ _ => .ok "from B"⟩, [toolEcho]⟩

/-- A tool-call request for "echo". -/
def fcEcho : GeminiTerminal.FunctionCall := ⟨"echo", []⟩

/-- C2: when a requested tool name appears in the tool lists of two or more
connected sessions, the dispatch resolves it by linear search in
session-registration order: the invoked session is the first one whose tool
list contains the name (index m, minimal), the produced part comes from that
session's `call_tool`, and the result is already determined by the list
prefix ending at that session — sessions after it are never consulted. -/
theorem claim_C2 (sessions : List GeminiTerminal.SessionEntry)
    (fc : GeminiTerminal.FunctionCall) (i j : Nat)
    (ei ej : GeminiTerminal.SessionEntry) (hij : i < j)
    (hi : sessions[i]? = some ei) (hj : sessions[j]? = some ej)
    (hti : GeminiTerminal.sessionHasTool ei fc.name = true)
    (htj : GeminiTerminal.sessionHasTool ej fc.name = true) :
    ∃ m em, m ≤ i ∧ sessions[m]? = some em ∧
      GeminiTerminal.sessionHasTool em fc.name = true ∧
      (∀ l, l < m → ∀ el, sessions[l]? = some el →
        GeminiTerminal.sessionHasTool el fc.name = false) ∧
      GeminiTerminal.dispatchCall sessions fc =
        (some m, ⟨fc.name, GeminiTerminal.callMatchedSession em fc⟩) ∧
      ∀ tail, GeminiTerminal.dispatchCall (sessions.take (m + 1) ++ tail) fc =
        GeminiTerminal.dispatchCall sessions fc := by
  cases hfs : GeminiTerminal.findSession sessions fc.name with
  | none =>
    exfalso
    have hall := GeminiTerminal.findSession_none_all sessions fc.name hfs ei
      (GeminiTerminal.mem_of_getElemOpt sessions i ei hi)
    simp [hall] at hti
  | some p =>
    obtain ⟨m0, em⟩ := p
    obtain ⟨hget, htool, hmin⟩ :=
      GeminiTerminal.findSession_spec sessions fc.name m0 em hfs
    have hmi : m0 ≤ i := by
      by_contra hlt
      push_neg at hlt
      have := hmin i hlt ei hi
      simp [this] at hti
    refine ⟨m0, em, hmi, hget, htool, hmin, ?_, ?_⟩
    · simp [GeminiTerminal.dispatchCall, hfs]
    · intro tail
      have htake :=
        GeminiTerminal.findSession_take_append sessions fc.name m0 em hfs tail
      simp [GeminiTerminal.dispatchCall, hfs, htake]

theorem claim_C2_witness :
    ∃ m em, m ≤ 0 ∧ [sessA, sessB][m]? = some em ∧
      GeminiTerminal.sessionHasTool em fcEcho.name = true ∧
      (∀ l, l < m → ∀ el, [sessA, sessB][l]? = some el →
        GeminiTerminal.sessionHasTool el fcEcho.name = false) ∧
      GeminiTerminal.dispatchCall [sessA, sessB] fcEcho =
        (some m, ⟨fcEcho.name, GeminiTerminal.callMatchedSession em fcEcho⟩) ∧
      ∀ tail, GeminiTerminal.dispatchCall ([sessA, sessB].take (m + 1) ++ tail) fcEcho =
        GeminiTerminal.dispatchCall [sessA, sessB] fcEcho :=
  claim_C2 [sessA, sessB] fcEcho 0 1 sessA sessB (by decide) rfl rfl
    (by decide) (by decide)

/-- C5: a tool-call request whose name matches no connected session's tool
list produces the inline error part "Tool ... not found in active servers";
that part is appended to the history inside the single tool-results turn
together with the other results of that turn, and the loop still proceeds to
the next model invocation (two invocations in total when the follow-up turn
requests nothing). -/
theorem claim_C5 (modelCall : Nat → GeminiTerminal.ModelResponse)
    (sessions : List GeminiTerminal.SessionEntry) (sys usr : String)
    (fc : GeminiTerminal.FunctionCall)
    (h0 : fc ∈ (modelCall 0).function_calls)
    (hnone : ∀ e ∈ sessions, GeminiTerminal.sessionHasTool e fc.name = false)
    (h1 : (modelCall 1).function_calls = []) :
    (GeminiTerminal.generate_mcp_content modelCall sessions sys usr).invocations = 2 ∧
    (GeminiTerminal.generate_mcp_content modelCall sessions sys usr).contents =
      [GeminiTerminal.Content.userText sys,
       GeminiTerminal.Content.modelText "I\x27ll help you with that.",
       GeminiTerminal.Content.userText usr,
       GeminiTerminal.Content.modelTurn (modelCall 0),
       GeminiTerminal.Content.toolResults ((modelCall 0).function_calls.map
         (fun c => (GeminiTerminal.dispatchCall sessions c).2)),
       GeminiTerminal.Content.modelTurn (modelCall 1)] ∧
    GeminiTerminal.Part.mk fc.name
        (.error ("Tool \x27" ++ fc.name ++ "\x27 not found in active servers"))
      ∈ (modelCall 0).function_calls.map
          (fun c => (GeminiTerminal.dispatchCall sessions c).2) := by
  have hne : (modelCall 0).function_calls ≠ [] := List.ne_nil_of_mem h0
  rw [GeminiTerminal.generate_one_turn modelCall sessions sys usr hne h1]
  refine ⟨rfl, rfl, ?_⟩
  have hfind : GeminiTerminal.findSession sessions fc.name = none :=
    GeminiTerminal.findSession_eq_none sessions fc.name hnone
  have hdc : (GeminiTerminal.dispatchCall sessions fc).2 =
      ⟨fc.name, .error ("Tool \x27" ++ fc.name ++ "\x27 not found in active servers")⟩ := by
    simp [GeminiTerminal.dispatchCall, hfind]
  rw [← hdc]
  exact List.mem_map_of_mem _ h0

theorem claim_C5_witness :
    (GeminiTerminal.generate_mcp_content modelSeqD [] "s" "u").invocations = 2 ∧
    (GeminiTerminal.generate_mcp_content modelSeqD [] "s" "u").contents =
      [GeminiTerminal.Content.userText "s",
       GeminiTerminal.Content.modelText "I\x27ll help you with that.",
       GeminiTerminal.Content.userText "u",
       GeminiTerminal.Content.modelTurn (modelSeqD 0),
       GeminiTerminal.Content.toolResults ((modelSeqD 0).function_calls.map
         (fun c => (GeminiTerminal.dispatchCall [] c).2)),
       GeminiTerminal.Content.modelTurn (modelSeqD 1)] ∧
    GeminiTerminal.Part.mk (GeminiTerminal.FunctionCall.mk "ghost" []).name
        (.error ("Tool \x27" ++ (GeminiTerminal.FunctionCall.mk "ghost" []).name ++
          "\x27 not found in active servers"))
      ∈ (modelSeqD 0).function_calls.map
          (fun c => (GeminiTerminal.dispatchCall [] c).2) :=
  claim_C5 modelSeqD [] "s" "u" ⟨"ghost", []⟩ (by decide) (by simp) (by decide)

namespace Src

/-- `DEFAULT_SYSTEM_PROMPT` in `src/config.py`. -/
def DEFAULT_SYSTEM_PROMPT : String :=
  "Formulate all responses as if you were a sentient AI."

/-- `src.config.ServerConfig` (pydantic model) with its field defaults. -/
structure ServerConfig where
  name : String := "Default Server"
  command : String := "python"
  args : List String := []
  env : List (String × String) := []
  enabled : Bool := true
deriving DecidableEq

/-- `src.config.AppConfig` (pydantic model) with its field defaults. -/
structure AppConfig where
  system_prompt : String := DEFAULT_SYSTEM_PROMPT
  servers : List ServerConfig := []
deriving DecidableEq

/-- One server dict inside the parsed JSON config document; every field is
optional because the code reads them with `dict.get`.  Pydantic fills
missing fields with the `ServerConfig` defaults. -/
structure ServerData where
  name : Option String := none
  command : Option String := none
  args : Option (List String) := none
  env : Option (List (String × String)) := none
  enabled : Option Bool := none
deriving DecidableEq

/-- The parsed top-level JSON config document.  `command`/`args`/`env` may
appear at top level in the legacy format handled by `AppConfig.load`. -/
structure ConfigData where
  system_prompt : Option String := none
  command : Option String := none
  args : Option (List String) := none
  env : Option (List (String × String)) := none
  servers : Option (List ServerData) := none
deriving DecidableEq

/-- The state of the config file as seen by `AppConfig.load`: absent,
present but unparseable (``json.load`` raises), or present with a parsed
document. -/
inductive ConfigFileState
  | missing
  | corrupt
  | valid (data : ConfigData)

/-- `model_dump()` of a `ServerConfig`: every field becomes a present key. -/
def ServerConfig.model_dump (s : ServerConfig) : ServerData :=
  ⟨some s.name, some s.command, some s.args, some s.env, some s.enabled⟩

/-- Pydantic validation of one server dict: present keys keep their values,
missing keys take the `ServerConfig` defaults. -/
def parseServerData (sd : ServerData) : ServerConfig :=
  { name := sd.name.getD "Default Server",
    command := sd.command.getD "python",
    args := sd.args.getD [],
    env := sd.env.getD [],
    enabled := sd.enabled.getD true }

/-- `command.split("/")[-1]`: the substring after the last "/" (the whole
string when it contains none). -/
def baseNameChars : List Char → List Char → List Char
  | [], acc => acc
  | c :: rest, acc =>
    if c = '/' then baseNameChars rest []
    else baseNameChars rest (acc ++ [c])

/-- String form of `command.split("/")[-1]`. -/
def baseName (command : String) : String :=
  String.mk (baseNameChars command.data [])

/-- The "migrate any servers with default names" loop body of
`AppConfig.load`: a server dict named "Default Server" is renamed to
"{command basename} Server {i+1}" (or "MCP Server {i+1}" when its command
is missing or empty). -/
def renameDefault (i : Nat) (sd : ServerData) : ServerData :=
  if sd.name = some "Default Server" then
    let command := sd.command.getD ""
    if command ≠ "" then
      { sd with name := some (baseName command ++ " Server " ++ toString (i + 1)) }
    else
      { sd with name := some ("MCP Server " ++ toString (i + 1)) }
  else sd

/-- `for i, server in enumerate(data['servers'])` applying `renameDefault`. -/
def renameServers (i : Nat) : List ServerData → List ServerData
  | [] => []
  | sd :: rest => renameDefault i sd :: renameServers (i + 1) rest

/-- The "migration from old format to new" branch of `AppConfig.load`: when
the document has a top-level `command` key and no `servers` key, a
"Migrated Server" entry is synthesized from the top-level keys, which are
then removed. -/
def migrateOldFormat (d : ConfigData) : ConfigData :=
  if d.command.isSome ∧ d.servers.isNone then
    let server : ServerConfig :=
      { name := "Migrated Server",
        command := d.command.getD "",
        args := d.args.getD [],
        env := d.env.getD [] }
    { d with servers := some [server.model_dump],
             command := none, args := none, env := none }
  else d

/-- `src.config.AppConfig.load`: defaults on a missing file; a corrupt file
raises `json.JSONDecodeError` (the function has no handler for it, modelled
as `Except.error`); a parsed document goes through the legacy-format
migration, the default-name renaming, and pydantic construction with
defaults for missing keys. -/
def AppConfig.load (s : ConfigFileState) : Except String AppConfig :=
  match s with
  | .missing => .ok {}
  | .corrupt => .error "json.JSONDecodeError"
  | .valid data =>
    let data1 := migrateOldFormat data
    let data2 := { data1 with servers := data1.servers.map (renameServers 0) }
    .ok { system_prompt := data2.system_prompt.getD DEFAULT_SYSTEM_PROMPT,
          servers := (data2.servers.getD []).map parseServerData }

/-- `src.config.AppConfig.save`: `json.dump(self.model_dump(), f)` — the
written document has exactly the keys `system_prompt` and `servers`, each
server dumped with all its fields present. -/
def AppConfig.save (c : AppConfig) : ConfigData :=
  { system_prompt := some c.system_prompt,
    servers := some (c.servers.map ServerConfig.model_dump) }

end Src

namespace Src

theorem parse_dump (s : ServerConfig) :
    parseServerData s.model_dump = s := rfl

theorem renameServers_dump (l : List ServerConfig) :
    ∀ n, (∀ s ∈ l, s.name ≠ "Default Server") →
      renameServers n (l.map ServerConfig.model_dump) = l.map ServerConfig.model_dump := by
  induction l with
  | nil => intro n _; rfl
  | cons s rest ih =>
    intro n h
    simp only [List.map_cons, renameServers]
    rw [ih (n + 1) (fun s' hs' => h s' (List.mem_cons_of_mem s hs'))]
    congr 1
    unfold renameDefault
    rw [if_neg]
    simp only [ServerConfig.model_dump, Option.some.injEq]
    exact h s (List.mem_cons_self s rest)

end Src

/-- The src variant's save-then-load round-trip is the identity whenever no
server carries the name "Default Server" targeted by the rename
migration. -/
theorem src_save_load_roundtrip (c : Src.AppConfig)
    (h : ∀ s ∈ c.servers, s.name ≠ "Default Server") :
    Src.AppConfig.load (.valid (Src.AppConfig.save c)) = Except.ok c := by
  have hmig : Src.migrateOldFormat (Src.AppConfig.save c) = Src.AppConfig.save c := by
    unfold Src.migrateOldFormat
    rw [if_neg]
    simp [Src.AppConfig.save]
  simp only [Src.AppConfig.load]
  rw [hmig]
  simp only [Src.AppConfig.save, Option.map_some', Option.getD_some]
  rw [Src.renameServers_dump c.servers 0 h]
  rw [List.map_map]
  have hmap : c.servers.map (Src.parseServerData ∘ Src.ServerConfig.model_dump) =
      c.servers.map id := List.map_congr_left (fun s _ => Src.parse_dump s)
  rw [hmap, List.map_id]

namespace Src

/-- The MCP-related attributes of `src.app.TerminalApp` touched by
`_connect_mcp_async`: the session handle, the cached tool list, the
connected flag and the async exit stack (handles abstracted as numbers). -/
structure McpAppState where
  session : Option Nat := none
  mcp_tools : List String := []
  mcp_connected : Bool := false
  exit_stack : Option Nat := none
deriving DecidableEq

/-- Where a `_connect_mcp_async` attempt fails, if it does: entering the
stdio transport, entering the `ClientSession` context, or the `list_tools`
call made after `self.session` has already been assigned; or it succeeds
with a session and its tools. -/
inductive ConnectOutcome
  | stdioFail (msg : String)
  | sessionFail (msg : String)
  | listToolsFail (session : Nat) (msg : String)
  | success (session : Nat) (tools : List String)
deriving DecidableEq

/-- Result of one `_connect_mcp_async` run: the new attribute state and
whether an error notification was sent to the UI. -/
structure ConnectStep where
  state : McpAppState
  errorNotified : Bool
deriving DecidableEq

/-- `src.app.TerminalApp._connect_mcp_async`: a fresh `AsyncExitStack` is
assigned to `self.exit_stack`; on success `self.session`, `self.mcp_tools`
and `self.mcp_connected` are all set; on any exception the handler notifies
the UI, closes the exit stack and sets it to `None` — but `self.session`
keeps whatever value it had at the point of failure, so a failure inside
`list_tools` leaves the session handle of the failed attempt behind. -/
def connect_mcp_async (st : McpAppState) (newStack : Nat) (o : ConnectOutcome) :
    ConnectStep :=
  match o with
  | .stdioFail _ => ⟨{ st with exit_stack := none }, true⟩
  | .sessionFail _ => ⟨{ st with exit_stack := none }, true⟩
  | .listToolsFail s _ => ⟨{ st with session := some s, exit_stack := none }, true⟩
  | .success s tools =>
    ⟨{ st with session := some s, mcp_tools := tools, mcp_connected := true,
               exit_stack := some newStack }, false⟩

end Src

namespace GeminiTerminal

/-- The outcome of the stdio handshake plus `list_tools` performed inside
`connect_to_server`: either some step raises with a message, or a session is
established and its tools listed. -/
inductive ConnectAttempt
  | fails (msg : String)
  | succeeds (session : Nat) (tools : List McpTool)

/-- `gemini_terminal.server.mcp_client.connect_to_server`: on success it
returns the `(server_config, session, tools)` triple; any exception is
re-raised as a `ConnectionError` naming the server, and no state is
retained (the function is stateless). -/
def connect_to_server (cfg : ServerConfig) (a : ConnectAttempt) :
    Except String (ServerConfig × Nat × List McpTool) :=
  match a with
  | .fails msg =>
    .error ("Failed to connect to MCP server " ++ cfg.name ++ ": " ++ msg)
  | .succeeds s ts => .ok (cfg, s, ts)

end GeminiTerminal

/-- C4 fails as stated: starting from the fresh application state, a connect
attempt that fails inside `list_tools` does notify the UI, but the resulting
state differs from the original — `self.session` retains the handle of the
failed attempt because the exception handler of `_connect_mcp_async` resets
only `self.exit_stack`. -/
theorem claim_C4_counterexample :
    (Src.connect_mcp_async {} 0 (.listToolsFail 7 "list_tools failed")).errorNotified
        = true ∧
    (Src.connect_mcp_async {} 0 (.listToolsFail 7 "list_tools failed")).state ≠
      ({} : Src.McpAppState) ∧
    (Src.connect_mcp_async {} 0 (.listToolsFail 7 "list_tools failed")).state.session =
      some 7 := by
  refine ⟨rfl, ?_, rfl⟩
  decide

/-- C4 (amended): on every failing connect attempt an error is surfaced to
the UI, the exit stack is closed and cleared, and the tool list and
connected flag are unchanged; the session attribute is unchanged unless the
failure happened after session establishment (inside `list_tools`), in which
case it retains the handle of the failed attempt.  The gemini variant's
`connect_to_server` surfaces every failure as a `ConnectionError` naming the
server and retains nothing. -/
theorem claim_C4 (st : Src.McpAppState) (newStack : Nat) (o : Src.ConnectOutcome)
    (hfail : ∀ s tools, o ≠ .success s tools) :
    (Src.connect_mcp_async st newStack o).errorNotified = true ∧
    (Src.connect_mcp_async st newStack o).state.exit_stack = none ∧
    (Src.connect_mcp_async st newStack o).state.mcp_tools = st.mcp_tools ∧
    (Src.connect_mcp_async st newStack o).state.mcp_connected = st.mcp_connected ∧
    (Src.connect_mcp_async st newStack o).state.session =
      (match o with
       | .listToolsFail s _ => some s
       | _ => st.session) ∧
    (∀ cfg msg, GeminiTerminal.connect_to_server cfg (.fails msg) =
      Except.error ("Failed to connect to MCP server " ++ cfg.name ++ ": " ++ msg)) := by
  cases o with
  | stdioFail msg => exact ⟨rfl, rfl, rfl, rfl, rfl, fun _ _ => rfl⟩
  | sessionFail msg => exact ⟨rfl, rfl, rfl, rfl, rfl, fun _ _ => rfl⟩
  | listToolsFail s msg => exact ⟨rfl, rfl, rfl, rfl, rfl, fun _ _ => rfl⟩
  | success s tools => exact absurd rfl (hfail s tools)

/-- Concrete pre-state for exercising `connect_mcp_async`. -/
def mcpStateW : Src.McpAppState :=
  { session := none, mcp_tools := ["old"], mcp_connected := false, exit_stack := some 3 }

/-- Concrete failing outcome for exercising `connect_mcp_async`. -/
def outcomeW : Src.ConnectOutcome := .stdioFail "spawn failed"

theorem claim_C4_witness :
    (Src.connect_mcp_async mcpStateW 9 outcomeW).errorNotified = true ∧
    (Src.connect_mcp_async mcpStateW 9 outcomeW).state.exit_stack = none ∧
    (Src.connect_mcp_async mcpStateW 9 outcomeW).state.mcp_tools = mcpStateW.mcp_tools ∧
    (Src.connect_mcp_async mcpStateW 9 outcomeW).state.mcp_connected =
      mcpStateW.mcp_connected ∧
    (Src.connect_mcp_async mcpStateW 9 outcomeW).state.session =
      (match outcomeW with
       | .listToolsFail s _ => some s
       | _ => mcpStateW.session) ∧
    (∀ cfg msg, GeminiTerminal.connect_to_server cfg (.fails msg) =
      Except.error ("Failed to connect to MCP server " ++ cfg.name ++ ": " ++ msg)) :=
  claim_C4 mcpStateW 9 outcomeW
    (fun s tools h => Src.ConnectOutcome.noConfusion h)

namespace GeminiTerminal

/-- One server dict of the parsed YAML document.  The dataclass constructor
`ServerConfig(**server_data)` requires `name` and `command` (no defaults)
and rejects unknown keys (here `unknownKeys` lists them) with a
`TypeError`. -/
structure ServerDoc where
  name : Option String := none
  command : Option String := none
  args : Option (List String) := none
  env : Option (List (String × String)) := none
  active : Option Bool := none
  unknownKeys : List String := []
deriving DecidableEq

/-- The parsed top-level YAML document; `unknownKeys` lists keys that are
not fields of the `AppConfig` dataclass. -/
structure YamlDoc where
  gemini_api_key : Option String := none
  system_prompt : Option String := none
  model : Option String := none
  servers : Option (List ServerDoc) := none
  unknownKeys : List String := []
deriving DecidableEq

/-- State of the YAML config file as seen by `ConfigManager.load_config`:
absent, unparseable, present but carrying nodes `yaml.safe_load` refuses to
construct (the `!!python/object` tags that `yaml.dump` emits for dataclass
instances — `ConstructorError`), or parsed into a plain document. -/
inductive YamlFileState
  | missing
  | corrupt
  | pythonTagged
  | valid (doc : YamlDoc)
deriving DecidableEq

/-- `gemini_terminal.data_models.AppConfig` with its field defaults. -/
structure AppConfig where
  gemini_api_key : String := ""
  system_prompt : String := "You are a sentient AI assistant."
  model : String := "gemini-2.5-pro-exp-03-25"
  servers : List ServerConfig := []
deriving DecidableEq

/-- Does `ServerConfig(**server_data)` succeed on this dict?  It needs the
required fields `name` and `command` and no unexpected keyword argument. -/
def serverDocValid (sd : ServerDoc) : Bool :=
  sd.name.isSome && sd.command.isSome && sd.unknownKeys.isEmpty

/-- `ServerConfig(**server_data)` on a dict it accepts: present keys keep
their values, missing optional keys take the dataclass defaults. -/
def parseServerDoc (sd : ServerDoc) : ServerConfig :=
  { name := sd.name.getD "", command := sd.command.getD "",
    args := sd.args.getD [], env := sd.env.getD [],
    active := sd.active.getD false }

/-- `ConfigManager.load_config`: the default `AppConfig` on a missing file;
every exception — YAML parse error, a tag `safe_load` refuses (such as the
`!!python/object` nodes written by `save_config` for server entries), a
server dict rejected by `ServerConfig(**server_data)`, or an unknown
top-level key rejected by `AppConfig(**data)` — is caught by the blanket
handler, which prints and returns the default `AppConfig`, discarding the
values that were present in the file. -/
def load_config : YamlFileState → AppConfig
  | .missing => {}
  | .corrupt => {}
  | .pythonTagged => {}
  | .valid doc =>
    let sdocs := doc.servers.getD []
    if doc.unknownKeys.isEmpty && sdocs.all serverDocValid then
      { gemini_api_key := doc.gemini_api_key.getD "",
        system_prompt := doc.system_prompt.getD "You are a sentient AI assistant.",
        model := doc.model.getD "gemini-2.5-pro-exp-03-25",
        servers := sdocs.map parseServerDoc }
    else {}

/-- `ConfigManager.save_config`: `yaml.dump(config.__dict__)`.  With an
empty server list every dumped value is a plain string or empty list, so
the written file re-parses as the corresponding document (exactly the four
dataclass keys, no unknown ones).  With a non-empty server list,
`yaml.dump`'s default representer emits each `ServerConfig` dataclass
instance as a `!!python/object`-tagged node, which the `yaml.safe_load` of
the next `load_config` refuses. -/
def save_config (c : AppConfig) : YamlFileState :=
  if c.servers = [] then
    .valid { gemini_api_key := some c.gemini_api_key,
             system_prompt := some c.system_prompt,
             model := some c.model,
             servers := some [] }
  else .pythonTagged

end GeminiTerminal

namespace Llm

/-- `SYSTEM` in `llm_terminal/config.py`. -/
def SYSTEM : String := "You are a helpful AI assistant."

/-- The two settings managed by `load_settings`/`save_settings`, with the
`DEFAULT_SETTINGS` values as defaults. -/
structure Settings where
  model_identifier : String := "openai:o4-mini"
  system_prompt : String := SYSTEM
deriving DecidableEq

/-- `DEFAULT_SETTINGS` in `llm_terminal/config.py`. -/
def DEFAULT_SETTINGS : Settings := {}

/-- The parsed settings JSON document.  `load_settings` only ever consults
the two known keys via `dict.get`, so unknown keys (listed in
`unknownKeys`) are never read. -/
structure SettingsDoc where
  model_identifier : Option String := none
  system_prompt : Option String := none
  unknownKeys : List String := []
deriving DecidableEq

/-- State of the settings file as seen by `load_settings`. -/
inductive SettingsFileState
  | missing
  | corrupt
  | valid (doc : SettingsDoc)
deriving DecidableEq

/-- `llm_terminal.config.load_settings`: a copy of `DEFAULT_SETTINGS` on a
missing file or on any parse/read error; otherwise each known key read with
`dict.get` and defaulted when missing. -/
def load_settings : SettingsFileState → Settings
  | .missing => DEFAULT_SETTINGS
  | .corrupt => DEFAULT_SETTINGS
  | .valid d =>
    { model_identifier := d.model_identifier.getD DEFAULT_SETTINGS.model_identifier,
      system_prompt := d.system_prompt.getD DEFAULT_SETTINGS.system_prompt }

end Llm

/-- Concrete src config whose single server carries the default name. -/
def srcCfgDefault : Src.AppConfig := { servers := [{}] }

/-- Concrete gemini config with one server (a non-empty server list). -/
def geminiCfgSrv : GeminiTerminal.AppConfig :=
  { servers := [{ name := "files", command := "run" }] }

/-- C3 fails as stated on both cited code paths.  Src variant: saving the
default `AppConfig` with one default server (named "Default Server",
command "python") and loading it back returns a config whose server was
renamed to "python Server 1" by the default-name migration in
`AppConfig.load`.  Gemini variant: saving a config with one server makes
`yaml.dump` write the `ServerConfig` instance as a `!!python/object`-tagged
node, `yaml.safe_load` refuses it on the next `load_config`, and the
blanket handler returns the all-default config instead of the saved one. -/
theorem claim_C3_counterexample :
    ¬ (Src.AppConfig.load (.valid (Src.AppConfig.save srcCfgDefault)) =
        Except.ok srcCfgDefault) ∧
    GeminiTerminal.load_config (GeminiTerminal.save_config geminiCfgSrv) =
      ({} : GeminiTerminal.AppConfig) ∧
    GeminiTerminal.load_config (GeminiTerminal.save_config geminiCfgSrv) ≠
      geminiCfgSrv := by
  refine ⟨?_, rfl, by decide⟩
  intro h
  have hrfl : Src.AppConfig.load (.valid (Src.AppConfig.save srcCfgDefault)) =
      Except.ok ({ servers := [{ name := "python Server 1" }] } : Src.AppConfig) := rfl
  rw [hrfl] at h
  have := Except.ok.inj h
  exact absurd this (by decide)

/-- C3 (amended), split by variant as the counterexamples force.  Src
variant: for every `AppConfig` none of whose servers is named
"Default Server", `save` followed by `load` reproduces the config exactly,
field for field (name, command, args, env, enabled of every server and the
system prompt).  Gemini variant: `save_config` followed by `load_config`
reproduces the config exactly when its server list is empty; with a
non-empty server list the saved YAML carries `!!python/object` tags that
`yaml.safe_load` refuses, so `load_config` returns the all-default
config. -/
theorem claim_C3 :
    (∀ c : Src.AppConfig, (∀ s ∈ c.servers, s.name ≠ "Default Server") →
      Src.AppConfig.load (.valid (Src.AppConfig.save c)) = Except.ok c) ∧
    (∀ c : GeminiTerminal.AppConfig, c.servers = [] →
      GeminiTerminal.load_config (GeminiTerminal.save_config c) = c) ∧
    (∀ c : GeminiTerminal.AppConfig, c.servers ≠ [] →
      GeminiTerminal.load_config (GeminiTerminal.save_config c) =
        ({} : GeminiTerminal.AppConfig)) := by
  refine ⟨src_save_load_roundtrip, fun c h => ?_, fun c h => ?_⟩
  · obtain ⟨k, sp, mo, srv⟩ := c
    obtain rfl : srv = [] := h
    rfl
  · obtain ⟨k, sp, mo, srv⟩ := c
    cases srv with
    | nil => exact absurd rfl h
    | cons s rest => rfl

/-- Concrete src config with no "Default Server" name. -/
def srcCfgW : Src.AppConfig :=
  { system_prompt := "be curt",
    servers := [{ name := "files", command := "/usr/bin/server", args := ["--x"],
                  env := [("K", "V")], enabled := false }] }

/-- Concrete gemini config with an empty server list. -/
def geminiCfgRT : GeminiTerminal.AppConfig :=
  { gemini_api_key := "key-123", system_prompt := "Stay terse.",
    model := "gemini-2.0", servers := [] }

theorem claim_C3_witness :
    Src.AppConfig.load (.valid (Src.AppConfig.save srcCfgW)) = Except.ok srcCfgW ∧
    GeminiTerminal.load_config (GeminiTerminal.save_config geminiCfgRT) = geminiCfgRT ∧
    GeminiTerminal.load_config (GeminiTerminal.save_config geminiCfgSrv) =
      ({} : GeminiTerminal.AppConfig) :=
  ⟨claim_C3.1 srcCfgW (by decide),
   claim_C3.2.1 geminiCfgRT rfl,
   claim_C3.2.2 geminiCfgSrv (by decide)⟩

/-- C6 fails as stated: at the concrete input "corrupt config file", the
`src` variant's `AppConfig.load` has no handler for `json.JSONDecodeError`,
so the parse exception escapes to the caller instead of defaults being
returned. -/
theorem claim_C6_counterexample :
    Src.AppConfig.load Src.ConfigFileState.corrupt =
      Except.error "json.JSONDecodeError" ∧
    Src.AppConfig.load Src.ConfigFileState.corrupt ≠ Except.ok {} := by
  refine ⟨rfl, ?_⟩
  intro h
  simp only [Src.AppConfig.load] at h
  exact Except.noConfusion h

/-- C6 (amended): `ConfigManager.load_config` and `load_settings` return
the full documented defaults on a missing or corrupt file and never raise;
`AppConfig.load` (src variant) returns defaults on a missing file but lets
the JSON parse exception escape on a corrupt file. -/
theorem claim_C6 :
    (GeminiTerminal.load_config .missing = {} ∧
     GeminiTerminal.load_config .corrupt = {}) ∧
    (Llm.load_settings .missing = Llm.DEFAULT_SETTINGS ∧
     Llm.load_settings .corrupt = Llm.DEFAULT_SETTINGS) ∧
    (Src.AppConfig.load .missing = Except.ok {} ∧
     Src.AppConfig.load .corrupt = Except.error "json.JSONDecodeError") :=
  ⟨⟨rfl, rfl⟩, ⟨rfl, rfl⟩, ⟨rfl, rfl⟩⟩

/-- A YAML document carrying a known key together with an unknown key. -/
def yamlDocX : GeminiTerminal.YamlDoc :=
  { system_prompt := some "CUSTOM", unknownKeys := ["extra"] }

/-- C8 fails as stated for the gemini variant: a document holding the known
key `system_prompt` plus one unknown key makes `AppConfig(**data)` raise a
`TypeError`, caught by the blanket handler, so `load_config` returns the
all-default config and the present known key's value "CUSTOM" is lost
instead of the unknown key being ignored. -/
theorem claim_C8_counterexample :
    (GeminiTerminal.load_config (.valid yamlDocX)).system_prompt ≠ "CUSTOM" ∧
    GeminiTerminal.load_config (.valid yamlDocX) = {} := by
  refine ⟨?_, rfl⟩
  decide

/-- C8 (amended): `load_settings` keeps each present known key, defaults
each missing one, and ignores unknown keys (the result does not depend on
them); `ConfigManager.load_config` keeps present known keys and defaults
missing ones only when the document has no unknown keys and every server
entry has `name` and `command` and no unknown keys — otherwise the
constructor raises internally and `load_config` falls back to the
all-default config. -/
theorem claim_C8 :
    (∀ (d : Llm.SettingsDoc) (u : List String),
      Llm.load_settings (.valid { d with unknownKeys := u }) =
        Llm.load_settings (.valid { d with unknownKeys := [] })) ∧
    (∀ (d : Llm.SettingsDoc) (v : String), d.model_identifier = some v →
      (Llm.load_settings (.valid d)).model_identifier = v) ∧
    (∀ d : Llm.SettingsDoc, d.model_identifier = none →
      (Llm.load_settings (.valid d)).model_identifier =
        Llm.DEFAULT_SETTINGS.model_identifier) ∧
    (∀ (d : Llm.SettingsDoc) (v : String), d.system_prompt = some v →
      (Llm.load_settings (.valid d)).system_prompt = v) ∧
    (∀ d : Llm.SettingsDoc, d.system_prompt = none →
      (Llm.load_settings (.valid d)).system_prompt = Llm.SYSTEM) ∧
    (∀ doc : GeminiTerminal.YamlDoc, doc.unknownKeys ≠ [] →
      GeminiTerminal.load_config (.valid doc) = {}) ∧
    (∀ doc : GeminiTerminal.YamlDoc, doc.unknownKeys = [] →
      (doc.servers.getD []).all GeminiTerminal.serverDocValid = true →
      GeminiTerminal.load_config (.valid doc) =
        { gemini_api_key := doc.gemini_api_key.getD "",
          system_prompt := doc.system_prompt.getD "You are a sentient AI assistant.",
          model := doc.model.getD "gemini-2.5-pro-exp-03-25",
          servers := (doc.servers.getD []).map GeminiTerminal.parseServerDoc }) := by
  refine ⟨fun d u => rfl, fun d v h => ?_, fun d h => ?_, fun d v h => ?_,
    fun d h => ?_, fun doc h => ?_, fun doc h1 h2 => ?_⟩
  · simp [Llm.load_settings, h]
  · simp [Llm.load_settings, h]
  · simp [Llm.load_settings, h]
  · simp [Llm.load_settings, h, Llm.DEFAULT_SETTINGS, Llm.SYSTEM]
  · have hne : doc.unknownKeys.isEmpty = false := by
      cases hk : doc.unknownKeys with
      | nil => exact absurd hk h
      | cons a l => rfl
    simp [GeminiTerminal.load_config, hne]
  · simp [GeminiTerminal.load_config, h1, h2]

/-- A settings document with one present key, one missing key, and an
unknown key. -/
def settingsDocW : Llm.SettingsDoc :=
  { model_identifier := some "openai:gpt-4o", unknownKeys := ["note"] }

/-- A well-formed YAML document with no unknown keys. -/
def yamlDocW : GeminiTerminal.YamlDoc :=
  { system_prompt := some "S",
    servers := some [{ name := some "srv", command := some "run" }] }

theorem claim_C8_witness :
    Llm.load_settings (.valid { settingsDocW with unknownKeys := ["note"] }) =
      Llm.load_settings (.valid { settingsDocW with unknownKeys := [] }) ∧
    (Llm.load_settings (.valid settingsDocW)).model_identifier = "openai:gpt-4o" ∧
    (Llm.load_settings (.valid settingsDocW)).system_prompt = Llm.SYSTEM ∧
    GeminiTerminal.load_config (.valid yamlDocX) = {} ∧
    GeminiTerminal.load_config (.valid yamlDocW) =
      { gemini_api_key := yamlDocW.gemini_api_key.getD "",
        system_prompt := yamlDocW.system_prompt.getD "You are a sentient AI assistant.",
        model := yamlDocW.model.getD "gemini-2.5-pro-exp-03-25",
        servers := (yamlDocW.servers.getD []).map GeminiTerminal.parseServerDoc } :=
  ⟨claim_C8.1 settingsDocW ["note"],
   claim_C8.2.1 settingsDocW "openai:gpt-4o" rfl,
   claim_C8.2.2.2.2.1 settingsDocW rfl,
   claim_C8.2.2.2.2.2.1 yamlDocX (by decide),
   claim_C8.2.2.2.2.2.2 yamlDocW rfl (by decide)⟩

namespace Llm

/-- The fields of `AgentService` touched by `clear_history` and prompt
processing: model id, system prompt, the initialization flag and the
in-memory message history (messages abstracted as strings). -/
structure AgentState where
  model_identifier : String := ""
  system_prompt : String := ""
  is_initialized : Bool := false
  message_history : List String := []
deriving DecidableEq

/-- `AgentService.clear_history`: sets `message_history` to the empty list
and touches nothing else. -/
def clear_history (a : AgentState) : AgentState :=
  { a with message_history := [] }

/-- An item of `TerminalApp.prompt_queue`: the `None` stop sentinel or a
`(prompt, widget)` pair (the widget abstracted as an optional id; the
clear-history signal is the pair `("__CLEAR_HISTORY__", None)`). -/
inductive QueueItem
  | stop
  | promptItem (text : String) (widget : Option Nat)
deriving DecidableEq

/-- The application state relevant to the new-conversation action: the
persisted settings file, the in-memory settings mirror on the app object,
the agent service state, and the prompt queue. -/
structure TerminalAppState where
  settings_file : SettingsFileState
  model_identifier : String
  system_prompt : String
  agent : AgentState
  prompt_queue : List QueueItem
deriving DecidableEq

/-- The new-chat branch of `TerminalApp.on_button_pressed`: when the agent
worker is running, enqueue the `("__CLEAR_HISTORY__", None)` signal; no
settings are read or written. -/
def on_new_chat_button (st : TerminalAppState) (workerRunning : Bool) :
    TerminalAppState :=
  if workerRunning then
    { st with prompt_queue := st.prompt_queue ++ [QueueItem.promptItem "__CLEAR_HISTORY__" none] }
  else st

/-- One iteration of the worker loop in `TerminalApp.agent_worker`: a `None`
item stops the loop; a `"__CLEAR_HISTORY__"` item calls
`agent_service.clear_history()` when the agent is initialized; a prompt
without a widget is skipped; a real prompt is processed by the agent
(abstracted by the `processPrompt` argument, which never touches the
settings fields). -/
def worker_step (processPrompt : AgentState → String → AgentState)
    (st : TerminalAppState) : TerminalAppState :=
  match st.prompt_queue with
  | [] => st
  | QueueItem.stop :: rest => { st with prompt_queue := rest }
  | QueueItem.promptItem p w :: rest =>
    if p = "__CLEAR_HISTORY__" then
      { st with prompt_queue := rest,
                agent := if st.agent.is_initialized then clear_history st.agent
                         else st.agent }
    else
      match w with
      | none => { st with prompt_queue := rest }
      | some _ => { st with prompt_queue := rest, agent := processPrompt st.agent p }

end Llm

namespace GeminiTerminal

/-- The application state relevant to the gemini variant's new-conversation
action: the persisted config file, the in-memory config object, and the
chat view (widgets abstracted as their texts). -/
structure GeminiAppState where
  config_file : YamlFileState
  config : AppConfig
  chat_view : List String
deriving DecidableEq

/-- `GeminiTerminalApp.on_new_conversation`: clears the chat view and mounts
the welcome message; neither the config object nor the config file is
touched. -/
def on_new_conversation (st : GeminiAppState) : GeminiAppState :=
  { st with chat_view := ["Hello! I\x27m Gemini. How can I help you?"] }

end GeminiTerminal

/-- C9: the new-conversation action (button handler enqueuing the clear
signal, worker processing it via `AgentService.clear_history`) empties the
in-memory message history and changes nothing else: the persisted settings
file, the in-memory settings, and the other agent fields are untouched.
The gemini variant's handler likewise leaves config object and config file
unchanged. -/
theorem claim_C9 (st : Llm.TerminalAppState)
    (processPrompt : Llm.AgentState → String → Llm.AgentState)
    (h0 : st.prompt_queue = []) (h1 : st.agent.is_initialized = true)
    (gst : GeminiTerminal.GeminiAppState) :
    (Llm.worker_step processPrompt (Llm.on_new_chat_button st true)).agent.message_history = [] ∧
    (Llm.worker_step processPrompt (Llm.on_new_chat_button st true)).settings_file = st.settings_file ∧
    (Llm.worker_step processPrompt (Llm.on_new_chat_button st true)).model_identifier = st.model_identifier ∧
    (Llm.worker_step processPrompt (Llm.on_new_chat_button st true)).system_prompt = st.system_prompt ∧
    (Llm.worker_step processPrompt (Llm.on_new_chat_button st true)).agent.model_identifier = st.agent.model_identifier ∧
    (Llm.worker_step processPrompt (Llm.on_new_chat_button st true)).agent.system_prompt = st.agent.system_prompt ∧
    (Llm.worker_step processPrompt (Llm.on_new_chat_button st true)).agent.is_initialized = st.agent.is_initialized ∧
    (GeminiTerminal.on_new_conversation gst).config = gst.config ∧
    (GeminiTerminal.on_new_conversation gst).config_file = gst.config_file := by
  simp [Llm.on_new_chat_button, Llm.worker_step, h0, h1, Llm.clear_history,
        GeminiTerminal.on_new_conversation]

/-- Concrete application state with a nonempty message history. -/
def llmAppW : Llm.TerminalAppState :=
  { settings_file := .missing, model_identifier := "openai:o4-mini",
    system_prompt := "You are a helpful AI assistant.",
    agent := { model_identifier := "openai:o4-mini",
               system_prompt := "You are a helpful AI assistant.",
               is_initialized := true, message_history := ["m1", "m2"] },
    prompt_queue := [] }

/-- Concrete prompt processor (identity on the agent state). -/
def processPromptW : Llm.AgentState → String → Llm.AgentState := fun a _ => a

/-- Concrete gemini application state. -/
def geminiAppW : GeminiTerminal.GeminiAppState :=
  { config_file := .missing, config := {}, chat_view := ["old chat"] }

theorem claim_C9_witness :
    (Llm.worker_step processPromptW (Llm.on_new_chat_button llmAppW true)).agent.message_history = [] ∧
    (Llm.worker_step processPromptW (Llm.on_new_chat_button llmAppW true)).settings_file = llmAppW.settings_file ∧
    (Llm.worker_step processPromptW (Llm.on_new_chat_button llmAppW true)).model_identifier = llmAppW.model_identifier ∧
    (Llm.worker_step processPromptW (Llm.on_new_chat_button llmAppW true)).system_prompt = llmAppW.system_prompt ∧
    (Llm.worker_step processPromptW (Llm.on_new_chat_button llmAppW true)).agent.model_identifier = llmAppW.agent.model_identifier ∧
    (Llm.worker_step processPromptW (Llm.on_new_chat_button llmAppW true)).agent.system_prompt = llmAppW.agent.system_prompt ∧
    (Llm.worker_step processPromptW (Llm.on_new_chat_button llmAppW true)).agent.is_initialized = llmAppW.agent.is_initialized ∧
    (GeminiTerminal.on_new_conversation geminiAppW).config = geminiAppW.config ∧
    (GeminiTerminal.on_new_conversation geminiAppW).config_file = geminiAppW.config_file :=
  claim_C9 llmAppW processPromptW rfl rfl geminiAppW

namespace Llm

/-- The value found under a server's "args" key: absent, a JSON list of
strings, or present but not a list (`isinstance(args, list)` fails). -/
inductive ArgsVal
  | absent
  | strList (l : List String)
  | nonList
deriving DecidableEq

/-- One entry of the "mcpServers" object, read with `dict.get`. -/
structure McpServerEntry where
  command : Option String := none
  args : ArgsVal := .absent
  env : Option (List (String × String)) := none
deriving DecidableEq

/-- A constructed `MCPServerStdio(command, args=args, env=env)`. -/
structure MCPServerStdio where
  command : String
  args : List String
  env : Option (List (String × String))
deriving DecidableEq

/-- The parsed MCP config document: the "mcpServers" object as an
association list in iteration order. -/
structure McpDoc where
  mcpServers : List (String × McpServerEntry) := []
deriving DecidableEq

/-- State of the MCP config file as seen by
`load_mcp_servers_from_config`: absent (`FileNotFoundError`), unparseable
(`json.JSONDecodeError`), failing with some other read error, or parsed. -/
inductive McpFileState
  | missing
  | corrupt
  | otherReadError
  | valid (doc : McpDoc)

/-- The dict returned by `load_mcp_servers_from_config` plus whether
`ensure_config_file` was invoked to create the default file. -/
structure McpLoadResult where
  servers : List (String × MCPServerStdio)
  createdDefaultAttempted : Bool
deriving DecidableEq

/-- The per-entry check and construction of the loading loop:
`if command and isinstance(args, list)` builds the server, otherwise the
entry is skipped with a warning (an absent or empty command, or args that
are absent or not a list, fail the check). -/
def mkServerEntry (e : McpServerEntry) : Option MCPServerStdio :=
  match e.command, e.args with
  | some c, ArgsVal.strList l => if c ≠ "" then some ⟨c, l, e.env⟩ else none
  | _, _ => none

/-- `llm_terminal.config.load_mcp_servers_from_config`: an empty dict on a
missing file (after calling `ensure_config_file`), on a JSON decode error,
or on any other read error (every exception is caught); on a parsed
document, each valid entry contributes one server and invalid entries are
skipped. -/
def load_mcp_servers_from_config : McpFileState → McpLoadResult
  | .missing => ⟨[], true⟩
  | .corrupt => ⟨[], false⟩
  | .otherReadError => ⟨[], false⟩
  | .valid doc =>
    ⟨doc.mcpServers.filterMap
       (fun p => (mkServerEntry p.2).map (fun srv => (p.1, srv))), false⟩

theorem mkServerEntry_eq_some (e : McpServerEntry) (srv : MCPServerStdio) :
    mkServerEntry e = some srv ↔
      e.command = some srv.command ∧ srv.command ≠ "" ∧
      e.args = .strList srv.args ∧ e.env = srv.env := by
  obtain ⟨cmd, args, env⟩ := e
  obtain ⟨sc, sa, se⟩ := srv
  cases cmd with
  | none => simp [mkServerEntry]
  | some c =>
    cases args with
    | absent => simp [mkServerEntry]
    | nonList => simp [mkServerEntry]
    | strList l =>
      by_cases hc : c = ""
      · subst hc
        simp [mkServerEntry]
        rintro rfl h _
        exact absurd rfl h
      · simp [mkServerEntry, hc]
        rintro rfl _ _
        exact hc

end Llm

/-- C10: `load_mcp_servers_from_config` never raises and always returns a
dict: a missing file yields the empty dict after attempting to create the
default file, a decode error or any other read error yields the empty dict,
and a parsed document contributes exactly those entries that have a
non-empty command string and a list of args (the others are skipped), the
built server carrying that command, args list, and env. -/
theorem claim_C10 :
    Llm.load_mcp_servers_from_config .missing =
      { servers := [], createdDefaultAttempted := true } ∧
    Llm.load_mcp_servers_from_config .corrupt =
      { servers := [], createdDefaultAttempted := false } ∧
    Llm.load_mcp_servers_from_config .otherReadError =
      { servers := [], createdDefaultAttempted := false } ∧
    ∀ (doc : Llm.McpDoc) (name : String) (srv : Llm.MCPServerStdio),
      (name, srv) ∈ (Llm.load_mcp_servers_from_config (.valid doc)).servers ↔
        ∃ e, (name, e) ∈ doc.mcpServers ∧ e.command = some srv.command ∧
          srv.command ≠ "" ∧ e.args = .strList srv.args ∧ e.env = srv.env := by
  refine ⟨rfl, rfl, rfl, fun doc name srv => ?_⟩
  simp only [Llm.load_mcp_servers_from_config, List.mem_filterMap]
  constructor
  · rintro ⟨⟨n, e⟩, hmem, hmap⟩
    cases hmk : Llm.mkServerEntry e with
    | none => rw [hmk] at hmap; simp at hmap
    | some s =>
      rw [hmk] at hmap
      simp only [Option.map_some', Option.some.injEq, Prod.mk.injEq] at hmap
      obtain ⟨rfl, rfl⟩ := hmap
      exact ⟨e, hmem, (Llm.mkServerEntry_eq_some e s).mp hmk⟩
  · rintro ⟨e, hmem, hcond⟩
    refine ⟨(name, e), hmem, ?_⟩
    rw [(Llm.mkServerEntry_eq_some e srv).mpr hcond]
    rfl

/-- An MCP config document with one valid entry and two invalid ones. -/
def mcpDocW : Llm.McpDoc :=
  { mcpServers :=
      [("run_python", { command := some "deno", args := .strList ["run"], env := none }),
       ("no_command", { command := none, args := .strList [], env := none }),
       ("bad_args", { command := some "python", args := .nonList, env := none })] }

theorem claim_C10_witness :
    ("run_python",
      ({ command := "deno", args := ["run"], env := none } : Llm.MCPServerStdio)) ∈
      (Llm.load_mcp_servers_from_config (.valid mcpDocW)).servers :=
  (claim_C10.2.2.2 mcpDocW "run_python"
      { command := "deno", args := ["run"], env := none }).mpr
    ⟨{ command := some "deno", args := .strList ["run"], env := none },
     by decide, rfl, by decide, rfl, rfl⟩
